import Mathlib

/-
Verification development for the Instability diagnostic probe engine.

The definitions below are shallow embeddings of the Python sources:
  - src/core/tools_registry.py      (ToolRegistry: register_tool, get_tool, execute_tool, _sanitize_for_mcp)
  - src/core/error_handling.py      (create_error_response)
  - src/utils.py                    (create_tool_result, create_success_result)
  - src/instability_mcp/mcp_server.py     (_sanitize_response_data, _sanitize_text_content)
  - src/instability_mcp/session_manager.py (SessionManager)
  - src/network_tools/check_if_external_ip_changed.py (IP-change tracker)
  - src/network/ntp_connectivity.py (check_ntp_servers summary, analyze_ntp_sync)

JSON-like dynamic values (Python dict / list / str / numbers / bool / None)
are modelled by a mutual inductive family so that structural recursion and
mutual induction are available.  Strings are Lean strings; the two
character-level sanitizers operate on the underlying character list.
-/

namespace Instability

mutual

inductive Value where
  | vStr : String → Value
  | vInt : Int → Value
  | vRat : Rat → Value
  | vBool : Bool → Value
  | vNull : Value
  | vArr : ValueList → Value
  | vObj : ObjList → Value
deriving DecidableEq

inductive ValueList where
  | nil : ValueList
  | cons : Value → ValueList → ValueList
deriving DecidableEq

inductive ObjList where
  | nil : ObjList
  | cons : String → Value → ObjList → ObjList
deriving DecidableEq

end

namespace ObjList

/-- Python dict lookup `d.get(k)`: first binding of the key wins (dict keys are unique). -/
def lookup : ObjList → String → Option Value
  | nil, _ => none
  | cons k v rest, key => if k = key then some v else lookup rest key

/-- Keys of the dictionary, in insertion order. -/
def keys : ObjList → List String
  | nil => []
  | cons k _ rest => k :: keys rest

/-- Membership test for a key (`k in d`). -/
def hasKey (d : ObjList) (key : String) : Bool :=
  (d.lookup key).isSome

/-- Python dict assignment `d[k] = v`: replace the value in place if the key
exists, otherwise append the new binding at the end (insertion order). -/
def setKey : ObjList → String → Value → ObjList
  | nil, key, v => cons key v nil
  | cons k w rest, key, v =>
    if k = key then cons k v rest else cons k w (setKey rest key v)

/-- Python `d.update(other)`: assign every binding of `other` into `d`, in order. -/
def updateWith (d : ObjList) : ObjList → ObjList
  | nil => d
  | cons k v rest => updateWith (d.setKey k v) rest

end ObjList

/-! Character-level output sanitization.

`ToolRegistry._sanitize_for_mcp` (src/core/tools_registry.py) cleans every
string with two regex substitutions:
  re.sub(r..x1b..[0-9;]*[mK].., .., value)   -- strip ANSI colour escapes
  re.sub(r.[retain tab, newline, CR].., ..)  -- strip C0 controls and DEL
We model a Python string as its list of characters. -/

/-- Characters removed by the control-character pass: the regex class
x00-x08, x0B, x0C, x0E-x1F, x7F (tab, newline and carriage return survive). -/
def bannedCtrl (c : Char) : Bool :=
  (c.toNat ≤ 0x08) || (c.toNat == 0x0B) || (c.toNat == 0x0C) ||
  (0x0E ≤ c.toNat && c.toNat ≤ 0x1F) || (c.toNat == 0x7F)

/-- Second substitution of `_sanitize_for_mcp`: drop every control character. -/
def stripControl (s : List Char) : List Char :=
  s.filter (fun c => !bannedCtrl c)

/-- Parameter characters of an ANSI escape body: digits and semicolon. -/
def isAnsiParam (c : Char) : Bool :=
  ('0' ≤ c && c ≤ '9') || (c == ';')

/-- Consume `[0-9;]*[mK]` and return the remainder of the string, if the
pattern matches at the front. -/
def ansiBody : List Char → Option (List Char)
  | [] => none
  | c :: rest =>
    if c = 'm' ∨ c = 'K' then some rest
    else if isAnsiParam c then ansiBody rest
    else none

/-- Match `[[0-9;]*[mK]` (the part of the ANSI regex after the escape byte)
at the front of the string. -/
def matchAnsi : List Char → Option (List Char)
  | [] => none
  | c :: rest => if c = '[' then ansiBody rest else none

theorem ansiBody_length : ∀ {l l' : List Char}, ansiBody l = some l' → l'.length < l.length := by
  intro l
  induction l with
  | nil => intro l' h; simp [ansiBody] at h
  | cons c rest ih =>
    intro l' h
    by_cases hmk : c = 'm' ∨ c = 'K'
    · simp [ansiBody, hmk] at h
      subst h
      simp
    · by_cases hp : isAnsiParam c = true
      · simp [ansiBody, hmk, hp] at h
        exact Nat.lt_trans (ih h) (by simp)
      · simp [ansiBody, hmk, hp] at h

theorem matchAnsi_length : ∀ {l l' : List Char}, matchAnsi l = some l' → l'.length < l.length := by
  intro l l' h
  cases l with
  | nil => simp [matchAnsi] at h
  | cons c rest =>
    by_cases hc : c = '['
    · rw [matchAnsi, if_pos hc] at h
      exact Nat.lt_trans (ansiBody_length h) (by simp)
    · rw [matchAnsi, if_neg hc] at h
      exact absurd h (by simp)

/-- First substitution of `_sanitize_for_mcp`: remove every non-overlapping
occurrence of the ANSI escape pattern, scanning left to right as `re.sub` does. -/
def stripAnsi : List Char → List Char
  | [] => []
  | c :: rest =>
    if c = '\x1b' then
      match h : matchAnsi rest with
      | some rest' => stripAnsi rest'
      | none => c :: stripAnsi rest
    else c :: stripAnsi rest
termination_by l => l.length
decreasing_by
  · exact Nat.lt_trans (matchAnsi_length h) (by simp)
  · simp
  · simp

/-- String cleaning performed by `_sanitize_for_mcp` on each string field:
ANSI stripping followed by control-character stripping. -/
def sanitizeStr (s : String) : String :=
  ⟨stripControl (stripAnsi s.data)⟩

theorem mem_stripControl {c : Char} {s : List Char} (h : c ∈ stripControl s) :
    c ∈ s ∧ bannedCtrl c = false := by
  have := List.mem_filter.mp h
  simpa using this

theorem stripControl_eq_self {s : List Char} (h : ∀ c ∈ s, bannedCtrl c = false) :
    stripControl s = s := by
  apply List.filter_eq_self.mpr
  intro c hc
  simp [h c hc]

theorem stripAnsi_nil : stripAnsi [] = [] := by
  simp [stripAnsi]

theorem stripAnsi_cons_ne {c : Char} {rest : List Char} (hc : ¬(c = '\x1b')) :
    stripAnsi (c :: rest) = c :: stripAnsi rest := by
  rw [stripAnsi]
  simp [hc]

theorem stripAnsi_eq_self : ∀ {s : List Char}, '\x1b' ∉ s → stripAnsi s = s := by
  intro s
  induction s with
  | nil => intro _; exact stripAnsi_nil
  | cons c rest ih =>
    intro h
    have hc : ¬(c = '\x1b') := fun hc => h (by simp [hc])
    have hr : '\x1b' ∉ rest := fun hr => h (by simp [hr])
    rw [stripAnsi_cons_ne hc, ih hr]

/-- Every character surviving the combined strip is outside the control class. -/
theorem sanitizeStr_noBanned {c : Char} {s : String} (h : c ∈ (sanitizeStr s).data) :
    bannedCtrl c = false :=
  (mem_stripControl h).2

theorem esc_banned : bannedCtrl '\x1b' = true := by decide

/-- A string free of control characters is a fixed point of the combined strip. -/
theorem sanitizeStr_eq_self {s : String} (h : ∀ c ∈ s.data, bannedCtrl c = false) :
    sanitizeStr s = s := by
  have hesc : '\x1b' ∉ s.data := by
    intro hmem
    have := h _ hmem
    rw [esc_banned] at this
    exact absurd this (by simp)
  cases s with
  | mk data =>
    show String.mk (stripControl (stripAnsi data)) = String.mk data
    rw [stripAnsi_eq_self hesc, stripControl_eq_self h]

/-- The ANSI plus control strip is idempotent: one application reaches a
fixed point because the second pass removes every escape byte. -/
theorem sanitizeStr_idem (s : String) : sanitizeStr (sanitizeStr s) = sanitizeStr s :=
  sanitizeStr_eq_self (fun _ hc => sanitizeStr_noBanned hc)

/-! Colon replacement performed on exported text by
`InstabilityMCPServer._sanitize_text_content` (src/instability_mcp/mcp_server.py). -/

/-- Count occurrences of a character. -/
def countChar (c : Char) : List Char → Nat
  | [] => 0
  | d :: rest => (if d = c then 1 else 0) + countChar c rest

/-- Membership test used for the `":" in text` checks. -/
def containsChar (c : Char) : List Char → Bool
  | [] => false
  | d :: rest => (d = c) || containsChar c rest

/-- Substring test for `"::" in text`. -/
def hasDoubleColon : List Char → Bool
  | ':' :: ':' :: _ => true
  | _ :: rest => hasDoubleColon rest
  | [] => false

/-- The replacement `text.replace(":", "-")` of the MAC-address branch. -/
def mapColonHyphen (s : List Char) : List Char :=
  s.map (fun c => if c = ':' then '-' else c)

/-- The replacement `text.replace("::", "--")`, scanning left to right over
non-overlapping occurrences as Python `str.replace` does: whenever the next
two characters are both colons they are replaced and skipped, otherwise one
character is copied. -/
def replaceDoubleColon : List Char → List Char
  | [] => []
  | [c] => [c]
  | c :: d :: rest =>
    if c = ':' ∧ d = ':' then '-' :: '-' :: replaceDoubleColon rest
    else c :: replaceDoubleColon (d :: rest)

/-- The replacement `text.replace(":", " -")` of the general branch. -/
def colonToSpaceHyphen (s : List Char) : List Char :=
  s.flatMap (fun c => if c = ':' then [' ', '-'] else [c])

/-- Sanitizer `_sanitize_text_content`: colon replacement to work around a
downstream client defect.  `len(text.split(":"))` equals the number of colons
plus one, so the MAC-address guard `len(text.split(":")) >= 6` is five colons. -/
def sanitize_text_content (s : String) : String :=
  let l := s.data
  if containsChar ':' l && decide (6 ≤ countChar ':' l + 1) then
    ⟨mapColonHyphen l⟩
  else if containsChar ':' l then
    if hasDoubleColon l then ⟨mapColonHyphen (replaceDoubleColon l)⟩
    else ⟨colonToSpaceHyphen l⟩
  else s

theorem not_mem_mapColonHyphen (l : List Char) : ':' ∉ mapColonHyphen l := by
  intro h
  rcases List.mem_map.mp h with ⟨c, _, hc⟩
  by_cases h' : c = ':' <;> simp [h'] at hc

theorem not_mem_colonToSpaceHyphen (l : List Char) : ':' ∉ colonToSpaceHyphen l := by
  intro h
  rcases List.mem_flatMap.mp h with ⟨c, _, hc⟩
  by_cases h' : c = ':'
  · simp [h'] at hc
  · simp only [h', if_false, List.mem_singleton] at hc
    exact h' hc.symm

theorem containsChar_iff {c : Char} {l : List Char} : containsChar c l = true ↔ c ∈ l := by
  induction l with
  | nil => simp [containsChar]
  | cons d rest ih =>
    simp only [containsChar, Bool.or_eq_true, decide_eq_true_eq, ih]
    constructor
    · rintro (h | h)
      · exact h ▸ List.mem_cons_self d rest
      · exact List.mem_cons_of_mem d h
    · intro h
      rcases List.mem_cons.mp h with h | h
      · exact Or.inl h.symm
      · exact Or.inr h

/-- The output of the colon pass never contains a colon. -/
theorem sanitize_text_content_noColon (s : String) :
    ':' ∉ (sanitize_text_content s).data := by
  unfold sanitize_text_content
  by_cases h1 : containsChar ':' s.data && decide (6 ≤ countChar ':' s.data + 1)
  · simp only [h1, if_true]
    exact not_mem_mapColonHyphen _
  · simp only [h1, Bool.false_eq_true, if_false]
    by_cases h2 : containsChar ':' s.data
    · simp only [h2, if_true]
      by_cases h3 : hasDoubleColon s.data
      · simp only [h3, if_true]
        exact not_mem_mapColonHyphen _
      · simp only [h3, Bool.false_eq_true, if_false]
        exact not_mem_colonToSpaceHyphen _
    · simp only [h2, Bool.false_eq_true, if_false]
      intro hmem
      exact h2 (containsChar_iff.mpr hmem)

/-- A colon-free string is a fixed point of the colon pass. -/
theorem sanitize_text_content_eq_self {s : String} (h : ':' ∉ s.data) :
    sanitize_text_content s = s := by
  have hc : containsChar ':' s.data = false := by
    cases hcc : containsChar ':' s.data
    · rfl
    · exact absurd (containsChar_iff.mp hcc) h
  unfold sanitize_text_content
  simp [hc]

/-- Idempotence of the colon pass. -/
theorem sanitize_text_content_idem (s : String) :
    sanitize_text_content (sanitize_text_content s) = sanitize_text_content s :=
  sanitize_text_content_eq_self (sanitize_text_content_noColon s)

theorem mem_mapColonHyphen {c : Char} {l : List Char} (h : c ∈ mapColonHyphen l) :
    c ∈ l ∨ c = '-' := by
  rcases List.mem_map.mp h with ⟨d, hd, hc⟩
  by_cases h' : d = ':'
  · simp [h'] at hc
    exact Or.inr hc.symm
  · simp only [h', if_false] at hc
    exact Or.inl (hc ▸ hd)

theorem mem_replaceDoubleColon {c : Char} :
    ∀ (l : List Char), c ∈ replaceDoubleColon l → c ∈ l ∨ c = '-'
  | [] => by
    intro h
    rw [replaceDoubleColon] at h
    cases h
  | [d] => by
    intro h
    rw [replaceDoubleColon] at h
    exact Or.inl h
  | d :: e :: rest => by
    intro h
    rw [replaceDoubleColon] at h
    by_cases hde : d = ':' ∧ e = ':'
    · rw [if_pos hde] at h
      rcases List.mem_cons.mp h with h | h
      · exact Or.inr h
      rcases List.mem_cons.mp h with h | h
      · exact Or.inr h
      rcases mem_replaceDoubleColon rest h with h | h
      · exact Or.inl (by simp [h])
      · exact Or.inr h
    · rw [if_neg hde] at h
      rcases List.mem_cons.mp h with h | h
      · exact Or.inl (by simp [h])
      rcases mem_replaceDoubleColon (e :: rest) h with h | h
      · exact Or.inl (List.mem_cons_of_mem _ h)
      · exact Or.inr h

theorem mem_colonToSpaceHyphen {c : Char} {l : List Char} (h : c ∈ colonToSpaceHyphen l) :
    c ∈ l ∨ c = '-' ∨ c = ' ' := by
  rcases List.mem_flatMap.mp h with ⟨d, hd, hc⟩
  by_cases h' : d = ':'
  · simp only [h', if_true] at hc
    rcases List.mem_cons.mp hc with h | h
    · exact Or.inr (Or.inr h)
    · rcases List.mem_singleton.mp h with h
      exact Or.inr (Or.inl h)
  · simp only [h', if_false, List.mem_singleton] at hc
    exact Or.inl (hc ▸ hd)

theorem hyphen_space_not_banned : bannedCtrl '-' = false ∧ bannedCtrl ' ' = false := by
  decide

/-- The colon pass only ever introduces hyphens and spaces, so it preserves
freedom from control characters. -/
theorem sanitize_text_content_preserves_noBanned {s : String}
    (h : ∀ c ∈ s.data, bannedCtrl c = false) :
    ∀ c ∈ (sanitize_text_content s).data, bannedCtrl c = false := by
  intro c hc
  unfold sanitize_text_content at hc
  by_cases h1 : containsChar ':' s.data && decide (6 ≤ countChar ':' s.data + 1)
  · simp only [h1, if_true] at hc
    rcases mem_mapColonHyphen hc with hm | hm
    · exact h c hm
    · exact hm ▸ hyphen_space_not_banned.1
  · simp only [h1, Bool.false_eq_true, if_false] at hc
    by_cases h2 : containsChar ':' s.data
    · simp only [h2, if_true] at hc
      by_cases h3 : hasDoubleColon s.data
      · simp only [h3, if_true] at hc
        rcases mem_mapColonHyphen hc with hm | hm
        · rcases mem_replaceDoubleColon _ hm with hm | hm
          · exact h c hm
          · exact hm ▸ hyphen_space_not_banned.1
        · exact hm ▸ hyphen_space_not_banned.1
      · simp only [h3, Bool.false_eq_true, if_false] at hc
        rcases mem_colonToSpaceHyphen hc with hm | hm | hm
        · exact h c hm
        · exact hm ▸ hyphen_space_not_banned.1
        · exact hm ▸ hyphen_space_not_banned.2
    · simp only [h2, Bool.false_eq_true, if_false] at hc
      exact h c hc

/-- After the registry strip followed by the colon pass, the string is a fixed
point of the registry strip. -/
theorem sanitizeStr_fix_after_both (s : String) :
    sanitizeStr (sanitize_text_content (sanitizeStr s)) = sanitize_text_content (sanitizeStr s) :=
  sanitizeStr_eq_self
    (sanitize_text_content_preserves_noBanned (fun _ hc => sanitizeStr_noBanned hc))

/-! Value-level sanitizers.

`ToolRegistry._sanitize_for_mcp` recurses through dictionaries; inside a list
it sanitizes dictionary and string items but leaves any other item (including
a nested list) unchanged; at top level a non-dictionary input is returned
unchanged.  `InstabilityMCPServer._sanitize_response_data` recurses through
dictionaries, lists and strings uniformly, applying `_sanitize_text_content`
to every string. -/

mutual

/-- Sanitization `_sanitize_for_mcp` applies to each value of a dictionary. -/
def mcpVal : Value → Value
  | .vStr s => .vStr (sanitizeStr s)
  | .vObj kvs => .vObj (mcpObj kvs)
  | .vArr items => .vArr (mcpList items)
  | v => v

/-- Per-item sanitization `_sanitize_for_mcp` applies inside a list: only
dictionaries and strings are cleaned; other items pass through. -/
def mcpElem : Value → Value
  | .vObj kvs => .vObj (mcpObj kvs)
  | .vStr s => .vStr (sanitizeStr s)
  | v => v

def mcpList : ValueList → ValueList
  | .nil => .nil
  | .cons v rest => .cons (mcpElem v) (mcpList rest)

def mcpObj : ObjList → ObjList
  | .nil => .nil
  | .cons k v rest => .cons k (mcpVal v) (mcpObj rest)

end

/-- Entry point `_sanitize_for_mcp`: non-dictionary results are returned as-is. -/
def sanitize_for_mcp : Value → Value
  | .vObj kvs => .vObj (mcpObj kvs)
  | v => v

mutual

/-- Recursive sanitizer `_sanitize_response_data` of the protocol server. -/
def sanitize_response_data : Value → Value
  | .vObj kvs => .vObj (rdObj kvs)
  | .vArr items => .vArr (rdList items)
  | .vStr s => .vStr (sanitize_text_content s)
  | v => v

def rdList : ValueList → ValueList
  | .nil => .nil
  | .cons v rest => .cons (sanitize_response_data v) (rdList rest)

def rdObj : ObjList → ObjList
  | .nil => .nil
  | .cons k v rest => .cons k (sanitize_response_data v) (rdObj rest)

end

/-- Combined output sanitizer applied on the protocol egress path: the
registry strip (`_sanitize_for_mcp`) followed by the server colon pass
(`_sanitize_response_data`). -/
def sanitizeEnvelope (v : Value) : Value :=
  sanitize_response_data (sanitize_for_mcp v)

mutual

theorem sanitize_response_data_idem : (v : Value) →
    sanitize_response_data (sanitize_response_data v) = sanitize_response_data v
  | .vStr s => by
    simp [sanitize_response_data, sanitize_text_content_idem]
  | .vObj o => by
    simp [sanitize_response_data, rdObj_idem o]
  | .vArr l => by
    simp [sanitize_response_data, rdList_idem l]
  | .vInt _ => by simp [sanitize_response_data]
  | .vRat _ => by simp [sanitize_response_data]
  | .vBool _ => by simp [sanitize_response_data]
  | .vNull => by simp [sanitize_response_data]

theorem rdList_idem : (l : ValueList) → rdList (rdList l) = rdList l
  | .nil => by simp [rdList]
  | .cons v rest => by
    simp [rdList, sanitize_response_data_idem v, rdList_idem rest]

theorem rdObj_idem : (o : ObjList) → rdObj (rdObj o) = rdObj o
  | .nil => by simp [rdObj]
  | .cons k v rest => by
    simp [rdObj, sanitize_response_data_idem v, rdObj_idem rest]

end

mutual

theorem combVal_idem : (v : Value) →
    sanitize_response_data (mcpVal (sanitize_response_data (mcpVal v))) =
      sanitize_response_data (mcpVal v)
  | .vStr s => by
    simp [mcpVal, sanitize_response_data, sanitizeStr_fix_after_both, sanitize_text_content_idem]
  | .vObj o => by
    simp [mcpVal, sanitize_response_data, combObj_idem o]
  | .vArr l => by
    simp [mcpVal, sanitize_response_data, combList_idem l]
  | .vInt _ => by simp [mcpVal, sanitize_response_data]
  | .vRat _ => by simp [mcpVal, sanitize_response_data]
  | .vBool _ => by simp [mcpVal, sanitize_response_data]
  | .vNull => by simp [mcpVal, sanitize_response_data]

theorem combElem_idem : (v : Value) →
    sanitize_response_data (mcpElem (sanitize_response_data (mcpElem v))) =
      sanitize_response_data (mcpElem v)
  | .vStr s => by
    simp [mcpElem, sanitize_response_data, sanitizeStr_fix_after_both, sanitize_text_content_idem]
  | .vObj o => by
    simp [mcpElem, sanitize_response_data, combObj_idem o]
  | .vArr l => by
    simp [mcpElem, sanitize_response_data, rdList_idem l]
  | .vInt _ => by simp [mcpElem, sanitize_response_data]
  | .vRat _ => by simp [mcpElem, sanitize_response_data]
  | .vBool _ => by simp [mcpElem, sanitize_response_data]
  | .vNull => by simp [mcpElem, sanitize_response_data]

theorem combList_idem : (l : ValueList) →
    rdList (mcpList (rdList (mcpList l))) = rdList (mcpList l)
  | .nil => by simp [mcpList, rdList]
  | .cons v rest => by
    simp [mcpList, rdList, combElem_idem v, combList_idem rest]

theorem combObj_idem : (o : ObjList) →
    rdObj (mcpObj (rdObj (mcpObj o))) = rdObj (mcpObj o)
  | .nil => by simp [mcpObj, rdObj]
  | .cons k v rest => by
    simp [mcpObj, rdObj, combVal_idem v, combObj_idem rest]

end

/-- C6: the output sanitizer — ANSI-escape and control-character stripping
applied recursively to string fields (`_sanitize_for_mcp`) followed by the
colon-replacement pass applied to exported text (`_sanitize_response_data` /
`_sanitize_text_content`) — is idempotent on every envelope value:
sanitize (sanitize x) = sanitize x. -/
theorem claim_C6_sanitizer_idempotent (x : Value) :
    sanitizeEnvelope (sanitizeEnvelope x) = sanitizeEnvelope x := by
  cases x with
  | vObj o =>
    simp [sanitizeEnvelope, sanitize_for_mcp, sanitize_response_data, combObj_idem o]
  | vStr s =>
    simp [sanitizeEnvelope, sanitize_for_mcp, sanitize_response_data, sanitize_text_content_idem]
  | vArr l =>
    simp [sanitizeEnvelope, sanitize_for_mcp, sanitize_response_data, rdList_idem l]
  | vInt n => simp [sanitizeEnvelope, sanitize_for_mcp, sanitize_response_data]
  | vRat q => simp [sanitizeEnvelope, sanitize_for_mcp, sanitize_response_data]
  | vBool b => simp [sanitizeEnvelope, sanitize_for_mcp, sanitize_response_data]
  | vNull => simp [sanitizeEnvelope, sanitize_for_mcp, sanitize_response_data]

/-! Result envelope and error taxonomy, from src/core/error_handling.py and
src/utils.py. -/

/-- Error categories of `class ErrorType(str, Enum)`. -/
inductive ErrorType where
  | NETWORK | SYSTEM | INPUT | EXECUTION | CONFIGURATION
deriving DecidableEq

/-- String value of each category. -/
def ErrorType.val : ErrorType → String
  | .NETWORK => "network"
  | .SYSTEM => "system"
  | .INPUT => "input"
  | .EXECUTION => "execution"
  | .CONFIGURATION => "configuration"

/-- Specific error codes of `class ErrorCode(str, Enum)`. -/
inductive ErrorCode where
  | CONNECTION_FAILED | TIMEOUT | DNS_RESOLUTION | UNREACHABLE
  | PERMISSION_DENIED | TOOL_MISSING | INVALID_PLATFORM
  | INVALID_TARGET | INVALID_PORT | INVALID_FORMAT | MISSING_PARAMETER
  | COMMAND_FAILED | PARSING_ERROR | UNEXPECTED_ERROR
  | FILE_NOT_FOUND | INVALID_CONFIG | PERMISSION_ERROR
deriving DecidableEq

/-- String value of each code. -/
def ErrorCode.val : ErrorCode → String
  | .CONNECTION_FAILED => "connection_failed"
  | .TIMEOUT => "timeout"
  | .DNS_RESOLUTION => "dns_resolution"
  | .UNREACHABLE => "unreachable"
  | .PERMISSION_DENIED => "permission_denied"
  | .TOOL_MISSING => "tool_missing"
  | .INVALID_PLATFORM => "invalid_platform"
  | .INVALID_TARGET => "invalid_target"
  | .INVALID_PORT => "invalid_port"
  | .INVALID_FORMAT => "invalid_format"
  | .MISSING_PARAMETER => "missing_parameter"
  | .COMMAND_FAILED => "command_failed"
  | .PARSING_ERROR => "parsing_error"
  | .UNEXPECTED_ERROR => "unexpected_error"
  | .FILE_NOT_FOUND => "file_not_found"
  | .INVALID_CONFIG => "invalid_config"
  | .PERMISSION_ERROR => "permission_error"

/-- Message templates with remediation suggestions, `ERROR_MESSAGES`.  The
table is keyed the same way the lookup key is built, so an embedding keyed on
the pair of string values is faithful.  Template placeholders are kept
verbatim. -/
def errorMessages (key : String) : Option (String × List String) :=
  if key = "network.timeout" then
    some ("Operation timed out after \x7btimeout\x7ds",
      ["Check your internet connection",
       "Try increasing timeout value with appropriate parameter",
       "Verify target is reachable manually (ping/traceroute)",
       "Check if firewall is blocking the connection"])
  else if key = "network.connection_failed" then
    some ("Failed to establish connection to \x7btarget\x7d",
      ["Verify target IP/hostname is correct",
       "Check if target service is running",
       "Test basic connectivity with ping first",
       "Check firewall and network configuration"])
  else if key = "network.dns_resolution" then
    some ("Failed to resolve hostname \x7btarget\x7d",
      ["Check if hostname is spelled correctly",
       "Test DNS resolution with nslookup or dig",
       "Try using IP address instead of hostname",
       "Check DNS server configuration"])
  else if key = "system.tool_missing" then
    some ("Required tool \x7btool\x7d not found on system",
      ["Install \x7btool\x7d using your package manager",
       "Verify \x7btool\x7d is in your PATH environment variable",
       "Run instability.py test to check tool availability",
       "Check tool installation documentation"])
  else if key = "system.permission_denied" then
    some ("Permission denied for operation: \x7boperation\x7d",
      ["Run command with appropriate privileges (sudo)",
       "Check file/directory permissions",
       "Verify user has necessary access rights",
       "For network scans, try TCP connect scan (-sT) instead"])
  else if key = "input.invalid_target" then
    some ("Invalid target format: \x7btarget\x7d",
      ["Use valid IP address (e.g., 192.168.1.1)",
       "Use valid hostname (e.g., google.com)",
       "For network ranges, use CIDR notation (e.g., 192.168.1.0/24)",
       "Check target format requirements in tool documentation"])
  else if key = "input.invalid_port" then
    some ("Invalid port specification: \x7bport\x7d",
      ["Use port number between 1-65535",
       "Use port ranges like 80,443 or 1-1000",
       "Check port format documentation for the specific tool"])
  else if key = "execution.command_failed" then
    some ("Command execution failed: \x7bcommand\x7d",
      ["Check command syntax and parameters",
       "Verify all required tools are installed",
       "Run command manually to debug issues",
       "Check system logs for more details"])
  else none

/-- Rendering of an optional string the way Python string formatting renders
`None`. -/
def pyStrOfOpt : Option String → String
  | none => "None"
  | some s => s

/-- Read a placeholder name up to the closing brace; return the name and the
remainder of the template. -/
def readName : List Char → Option (List Char × List Char)
  | [] => none
  | c :: rest =>
    if c = '\x7d' then some ([], rest)
    else (readName rest).map (fun p => (c :: p.1, p.2))

theorem readName_length : ∀ {l : List Char} {n r : List Char},
    readName l = some (n, r) → r.length < l.length := by
  intro l
  induction l with
  | nil => intro n r h; simp [readName] at h
  | cons c rest ih =>
    intro n r h
    by_cases hc : c = '\x7d'
    · rw [readName, if_pos hc] at h
      injection h with h
      injection h with h1 h2
      subst h2
      simp
    · rw [readName, if_neg hc] at h
      cases hr : readName rest with
      | none => rw [hr] at h; cases h
      | some p =>
        rw [hr] at h
        injection h with h
        injection h with h1 h2
        subst h2
        exact Nat.lt_trans (ih hr) (by simp)

/-- Lookup of a format argument by name. -/
def lookupStr : List (String × String) → String → Option String
  | [], _ => none
  | (k, v) :: rest, key => if k = key then some v else lookupStr rest key

/-- Python `str.format` restricted to simple named placeholders: substitute
each placeholder from the environment; fail (KeyError) if any name is
unbound. -/
def formatTemplate (env : List (String × String)) : List Char → Option (List Char)
  | [] => some []
  | c :: rest =>
    if c = '\x7b' then
      match h : readName rest with
      | none => none
      | some (n, r) =>
        match lookupStr env ⟨n⟩ with
        | none => none
        | some v => (formatTemplate env r).map (fun t => v.data ++ t)
    else (formatTemplate env rest).map (fun t => c :: t)
termination_by l => l.length
decreasing_by
  · exact Nat.lt_trans (readName_length h) (by simp)
  · simp

/-- Message resolution of `create_error_response`: an explicit message is used
verbatim; otherwise the template is fetched and formatted, tolerating missing
placeholders by keeping the template text. -/
def resolvedMessage (ty : ErrorType) (code : ErrorCode) (message : Option String)
    (target tool_name : Option String) (fmtArgs : List (String × String)) : String :=
  match message with
  | some m => m
  | none =>
    let m0 := match errorMessages (ty.val ++ "." ++ code.val) with
      | some p => p.1
      | none => "Unknown error: " ++ code.val
    let env := ("target", pyStrOfOpt target) :: ("tool_name", pyStrOfOpt tool_name) :: fmtArgs
    match formatTemplate env m0.data with
    | some out => ⟨out⟩
    | none => m0

/-- Suggestion resolution of `create_error_response`. -/
def resolvedSuggestions (ty : ErrorType) (code : ErrorCode)
    (suggestions : Option (List String)) (target tool_name : Option String)
    (fmtArgs : List (String × String)) : List String :=
  match suggestions with
  | some s => s
  | none =>
    let raw := match errorMessages (ty.val ++ "." ++ code.val) with
      | some p => p.2
      | none => []
    let env := ("target", pyStrOfOpt target) :: ("tool_name", pyStrOfOpt tool_name) :: fmtArgs
    raw.map (fun t =>
      match formatTemplate env t.data with
      | some out => ⟨out⟩
      | none => t)

/-- Conversion of a list of strings to a JSON array value. -/
def strArr : List String → ValueList
  | [] => .nil
  | s :: rest => .cons (.vStr s) (strArr rest)

/-- Optional string as a JSON value (`None` becomes null). -/
def optStr : Option String → Value
  | none => .vNull
  | some s => .vStr s

/-- Standardized error response builder `create_error_response`
(src/core/error_handling.py).  `now_iso` stands for
`datetime.now().isoformat()`.  Keyword arguments are used only for message
formatting and are not merged into the result. -/
def create_error_response (error_type : ErrorType) (error_code : ErrorCode)
    (message : Option String) (details : Option ObjList)
    (suggestions : Option (List String)) (tool_name : Option String)
    (execution_time : Rat) (target : Option String)
    (fmtArgs : List (String × String)) (now_iso : String) : ObjList :=
  let msg := resolvedMessage error_type error_code message target tool_name fmtArgs
  let sugg := resolvedSuggestions error_type error_code suggestions target tool_name fmtArgs
  let cmdVal : Value := match details with
    | none => .vStr ""
    | some d => if d = .nil then .vStr "" else (d.lookup "command").getD .vNull
  let stderrVal : Value := match details with
    | none => .vStr ""
    | some d => if d = .nil then .vStr "" else (d.lookup "stderr").getD (.vStr "")
  let exitVal : Value := match details with
    | none => .vInt 1
    | some d => if d = .nil then .vInt 1 else (d.lookup "exit_code").getD (.vInt 1)
  let optsVal : Value := match details with
    | none => .vObj .nil
    | some d => if d = .nil then .vObj .nil else (d.lookup "options").getD (.vObj .nil)
  .cons "success" (.vBool false) (
  .cons "error" (.vObj (
    .cons "type" (.vStr error_type.val) (
    .cons "code" (.vStr error_code.val) (
    .cons "message" (.vStr msg) (
    .cons "details" (.vObj (details.getD .nil)) (
    .cons "suggestions" (.vArr (strArr sugg)) (
    .cons "timestamp" (.vStr now_iso) .nil))))))) (
  .cons "tool_name" (optStr tool_name) (
  .cons "execution_time" (.vRat execution_time) (
  .cons "target" (optStr target) (
  .cons "command_executed" cmdVal (
  .cons "stdout" (.vStr "") (
  .cons "stderr" stderrVal (
  .cons "parsed_data" (.vObj .nil) (
  .cons "error_type" (.vStr error_type.val) (
  .cons "error_message" (.vStr msg) (
  .cons "exit_code" exitVal (
  .cons "options_used" optsVal (
  .cons "timestamp" (.vStr now_iso) .nil)))))))))))))

/-- The thirteen required envelope keys of the result-envelope contract. -/
def requiredEnvelopeKeys : List String :=
  ["success", "exit_code", "execution_time", "timestamp", "tool_name", "target",
   "command_executed", "options_used", "stdout", "stderr", "parsed_data",
   "error_type", "error_message"]

/-- Standardized tool result builder `create_tool_result` (src/utils.py).
The thirteen fields are laid down in source order, then the extra keyword
fields are merged with `result.update(kwargs)`.  `timestamp` stands for
`start_time.isoformat()`. -/
def create_tool_result (success : Bool) (tool_name : String) (execution_time : Rat)
    (command_executed : String) (target : Option String) (stdout stderr : String)
    (parsed_data : Option ObjList) (error_type error_message : Option String)
    (exit_code : Int) (options_used : Option ObjList) (timestamp : String)
    (kwargs : ObjList) : ObjList :=
  let base : ObjList :=
    .cons "success" (.vBool success) (
    .cons "execution_time" (.vRat execution_time) (
    .cons "timestamp" (.vStr timestamp) (
    .cons "tool_name" (.vStr tool_name) (
    .cons "command_executed" (.vStr command_executed) (
    .cons "exit_code" (.vInt exit_code) (
    .cons "target" (optStr target) (
    .cons "options_used" (.vObj (options_used.getD .nil)) (
    .cons "stdout" (.vStr stdout) (
    .cons "stderr" (.vStr stderr) (
    .cons "parsed_data" (.vObj (parsed_data.getD .nil)) (
    .cons "error_type" (optStr error_type) (
    .cons "error_message" (optStr error_message) .nil))))))))))))
  base.updateWith kwargs

/-- Success wrapper `create_success_result` (src/utils.py): success with empty
stderr, exit code zero and null error fields. -/
def create_success_result (tool_name : String) (execution_time : Rat)
    (parsed_data : ObjList) (command_executed : String) (target : Option String)
    (stdout : String) (options_used : Option ObjList) (timestamp : String)
    (kwargs : ObjList) : ObjList :=
  create_tool_result true tool_name execution_time command_executed target stdout ""
    (some parsed_data) none none 0 options_used timestamp kwargs

/-! External-IP change tracker, src/network_tools/check_if_external_ip_changed.py.

The persisted JSON document holds four fields; `load_ip_history` fills any
missing key with `None`, so a parsed document is represented directly by the
record type.  The file system is `none` (file absent), `some none`
(unreadable or undecodable), or `some (some h)` (decoded document).
Timestamps are the ISO strings the source stores; each call receives the
would-be `datetime.now().isoformat()` value as a parameter. -/

structure IpHistory where
  current_ip : Option String
  current_timestamp : Option String
  previous_ip : Option String
  previous_timestamp : Option String
deriving DecidableEq

/-- Default structure returned when the history file is missing or invalid. -/
def defaultIpHistory : IpHistory :=
  ⟨none, none, none, none⟩

/-- Path `~/.config/instability/external_ip_history.json`. -/
def config_file_path : String :=
  "~/.config/instability/external_ip_history.json"

/-- Reader `load_ip_history`: missing file or decode failure yields the
default structure, otherwise the decoded document with defaults filled in. -/
def load_ip_history : Option (Option IpHistory) → IpHistory
  | none => defaultIpHistory
  | some none => defaultIpHistory
  | some (some h) => h

/-- File operations performed against the user configuration directory. -/
inductive FileOp where
  | writeFile (path : String) (content : IpHistory)
  | renameFile (src dst : String)
deriving DecidableEq

/-- Writer `save_ip_history`: a single direct `open(config_file, "w")` plus
`json.dump` — one write to the final path. -/
def save_ip_history (ip_data : IpHistory) : List FileOp :=
  [.writeFile config_file_path ip_data]

/-- Update step `update_ip_history`: load, shift current to previous when the
IP is new (and not the first run), then always store the new current IP with
a fresh timestamp, and save.  Returns the updated history and the file
operations of the save. -/
def update_ip_history (now_iso : String) (fs : Option (Option IpHistory))
    (new_ip : String) : IpHistory × List FileOp :=
  let ip_history := load_ip_history fs
  let h1 :=
    if ip_history.current_ip ≠ none ∧ ip_history.current_ip ≠ some new_ip then
      { ip_history with
          previous_ip := ip_history.current_ip,
          previous_timestamp := ip_history.current_timestamp }
    else ip_history
  let h2 := { h1 with current_ip := some new_ip, current_timestamp := some now_iso }
  (h2, save_ip_history h2)

/-- Sentinel returned by `get_public_ip` when the network is unavailable. -/
def could_not_determine : String :=
  "Could not determine external IP (offline or no connectivity)"

/-- Body of `check_ip_change_status` once the current IP is known. -/
def check_ip_change_core (current_ip : String) (now_iso : String)
    (fs : Option (Option IpHistory)) : Bool × String × Option IpHistory :=
  let ip_history := load_ip_history fs
  match ip_history.current_ip with
  | none =>
    let updated := (update_ip_history now_iso fs current_ip).1
    (false, "Initial IP recorded: " ++ current_ip, some updated)
  | some stored =>
    if current_ip ≠ stored then
      let updated := (update_ip_history now_iso fs current_ip).1
      (true, "IP changed from " ++ stored ++ " to " ++ current_ip, some updated)
    else
      let updated := (update_ip_history now_iso fs current_ip).1
      (false, "IP unchanged: " ++ current_ip, some updated)

/-- Checker `check_ip_change_status`.  When no IP is supplied the function
fetches one; `fetched_ip` is the value that fetch would produce.  The empty
dictionary returned on fetch failure is represented by `none`. -/
def check_ip_change_status (provided_ip : Option String) (fetched_ip : String)
    (now_iso : String) (fs : Option (Option IpHistory)) :
    Bool × String × Option IpHistory :=
  match provided_ip with
  | none =>
    if fetched_ip = could_not_determine then
      (false, "Cannot check IP change - unable to determine current external IP", none)
    else check_ip_change_core fetched_ip now_iso fs
  | some ip => check_ip_change_core ip now_iso fs

/-- Monitoring probe `monitor_external_ip_changes` (success path): wraps the
change check in a reduced reporting dictionary. -/
def monitor_external_ip_changes (fetched_ip : String) (now_iso : String)
    (fs : Option (Option IpHistory)) : ObjList :=
  let r := check_ip_change_status none fetched_ip now_iso fs
  let history := r.2.2
  let get : (IpHistory → Option String) → Value := fun f =>
    match history with
    | none => .vNull
    | some h => optStr (f h)
  .cons "success" (.vBool true) (
  .cons "changed" (.vBool r.1) (
  .cons "message" (.vStr r.2.1) (
  .cons "current_ip" (get IpHistory.current_ip) (
  .cons "current_timestamp" (get IpHistory.current_timestamp) (
  .cons "previous_ip" (get IpHistory.previous_ip) (
  .cons "previous_timestamp" (get IpHistory.previous_timestamp) (
  .cons "config_file" (.vStr config_file_path) .nil)))))))

/-- Run the change checker over a sequence of provided IPs, threading the
history file, and collect the reported change flags. -/
def run_ip_sequence : Nat → Option (Option IpHistory) → List String →
    List Bool × Option (Option IpHistory)
  | _, fs, [] => ([], fs)
  | t, fs, ip :: rest =>
    let r := check_ip_change_status (some ip) "" (toString t) fs
    let fs' : Option (Option IpHistory) :=
      match r.2.2 with
      | some h => some (some h)
      | none => fs
    let tail := run_ip_sequence (t + 1) fs' rest
    (r.1 :: tail.1, tail.2)

/-! Tool registry, src/core/tools_registry.py.  Python dictionaries keyed by
strings are association lists in insertion order; dict assignment replaces a
value in place or appends a new binding at the end.  A function reference
(`Callable`) is represented by an identifier resolved through an explicit
environment, since Python rebinds `function_ref` by importing the module. -/

def alistLookup {α : Type} : List (String × α) → String → Option α
  | [], _ => none
  | (k, v) :: rest, key => if k = key then some v else alistLookup rest key

def alistSet {α : Type} : List (String × α) → String → α → List (String × α)
  | [], key, v => [(key, v)]
  | (k, w) :: rest, key, v =>
    if k = key then (k, v) :: rest else (k, w) :: alistSet rest key v

def alistHasKey {α : Type} (l : List (String × α)) (key : String) : Bool :=
  (alistLookup l key).isSome

/-- Declared information about one tool parameter (`ParameterInfo`).  The
type tag carries the enum's string value. -/
structure ParameterInfo where
  param_type : String
  required : Bool := false
  default : Option Value := none
  description : String := ""
  choices : Option (List String) := none
  min_value : Option Rat := none
  max_value : Option Rat := none
deriving DecidableEq

/-- Complete metadata for a tool (`ToolMetadata`).  `function_ref` holds the
identifier of the resolved implementation, if any. -/
structure ToolMetadata where
  name : String
  function_name : String
  module_path : String
  description : String := ""
  category : String := "network_diagnostics"
  parameters : List (String × ParameterInfo) := []
  modes : List String := ["manual", "chatbot"]
  requires_external_tool : Bool := false
  external_tool_name : Option String := none
  privilege_required : Bool := false
  aliases : List String := []
  examples : List String := []
  function_ref : Option Nat := none
deriving DecidableEq

/-- Registry state: the `name → metadata` table (aliases included), the
category index, and the keys of the external-binary inventory (execution only
tests membership in `_external_tools`). -/
structure ToolRegistry where
  tools : List (String × ToolMetadata) := []
  categories : List (String × List String) := []
  external_tools : List String := []
deriving DecidableEq

/-- Whitelisted first segments for module imports (`_is_safe_module_path`). -/
def safe_prefixes : List String :=
  ["network", "pentest", "memory", "core", "network_diagnostics", "pentest.tool_detector"]

/-- Characters of the first dot-separated segment, `module_path.split(".")[0]`. -/
def firstSegment : List Char → List Char
  | [] => []
  | c :: rest => if c = '.' then [] else c :: firstSegment rest

def is_safe_module_path (module_path : String) : Bool :=
  safe_prefixes.contains ⟨firstSegment module_path.data⟩

/-- Import resolution environment: `resolve module_path function_name` is
`none` when the import or attribute access raises, `some none` when the
attribute resolves to `None`, and `some (some fid)` otherwise. -/
def ResolveEnv : Type := String → String → Option (Option Nat)

/-- Registration (`register_tool`).  Validation failures and unsafe module
paths raise `ValueError`; the safe branch resolves the function reference by
importing (propagating import errors).  The tool is indexed under its name
(overwriting any previous binding), appended to its category, and every alias
that is not already bound is pointed at the same metadata. -/
def register_tool (reg : ToolRegistry) (metadata : ToolMetadata)
    (resolve : ResolveEnv) : Except String ToolRegistry :=
  if metadata.name = "" then .error "Tool name is required"
  else if metadata.function_name = "" then .error "Function name is required"
  else if metadata.module_path = "" then .error "Module path is required"
  else if is_safe_module_path metadata.module_path then
    match resolve metadata.module_path metadata.function_name with
    | none => .error ("Import failed: " ++ metadata.module_path)
    | some r =>
      -- The follow-up "load if still None" block re-runs the same
      -- deterministic import with errors swallowed, so it cannot change r.
      let md := { metadata with function_ref := r }
      let tools1 := alistSet reg.tools md.name md
      let cats := match alistLookup reg.categories md.category with
        | none => reg.categories ++ [(md.category, [md.name])]
        | some l => alistSet reg.categories md.category (l ++ [md.name])
      let tools2 := md.aliases.foldl
        (fun ts al => if alistHasKey ts al then ts else ts ++ [(al, md)]) tools1
      .ok { reg with tools := tools2, categories := cats }
  else .error ("Unsafe module path: " ++ metadata.module_path)

/-- Lookup by name or alias (`get_tool`). -/
def get_tool (reg : ToolRegistry) (name : String) : Option ToolMetadata :=
  alistLookup reg.tools name

/-- Keep only the argument keys declared in the metadata, in argument order. -/
def filterDeclared (params : ObjList) (declared : List (String × ParameterInfo)) : ObjList :=
  match params with
  | .nil => .nil
  | .cons k v rest =>
    if alistHasKey declared k then .cons k v (filterDeclared rest declared)
    else filterDeclared rest declared

/-- First required parameter that is absent from the filtered arguments, in
declaration order. -/
def firstMissingRequired (declared : List (String × ParameterInfo))
    (filtered : ObjList) : Option String :=
  match declared with
  | [] => none
  | (k, info) :: rest =>
    if info.required && !(filtered.hasKey k) then some k
    else firstMissingRequired rest filtered

/-- Function environment: a probe either returns its envelope dictionary or
raises, which is an `Except.error` carrying the exception text. -/
def FuncEnv : Type := Nat → ObjList → Except String ObjList

/-- Unified execution entry point (`execute_tool`).  `mcp_mode` models the
`MCP_MODE` environment toggle.  The embedding is a total function: every
branch of the source returns an envelope, exceptions from the probe arriving
as `Except.error`. -/
def execute_tool (funcs : FuncEnv) (mcp_mode : Bool) (reg : ToolRegistry)
    (tool_name : String) (parameters : Option ObjList) (mode : String)
    (now_iso : String) : ObjList :=
  match get_tool reg tool_name with
  | none =>
    create_error_response .INPUT .INVALID_TARGET
      (some ("Tool '" ++ tool_name ++ "' not found"))
      none none (some "tool_registry") 0 none [] now_iso
  | some metadata =>
    if ¬ metadata.modes.contains mode then
      create_error_response .INPUT .INVALID_TARGET
        (some ("Tool '" ++ tool_name ++ "' not available in " ++ mode ++ " mode"))
        none none (some "tool_registry") 0 none [] now_iso
    else if metadata.requires_external_tool &&
        !(match metadata.external_tool_name with
          | some n => reg.external_tools.contains n
          | none => false) then
      create_error_response .SYSTEM .TOOL_MISSING
        (some ("External tool '" ++ pyStrOfOpt metadata.external_tool_name ++ "' not found"))
        none none (some tool_name) 0 none [] now_iso
    else
      let filtered := filterDeclared (parameters.getD .nil) metadata.parameters
      match firstMissingRequired metadata.parameters filtered with
      | some missing =>
        create_error_response .INPUT .MISSING_PARAMETER
          (some ("Required parameter '" ++ missing ++ "' missing"))
          none none (some tool_name) 0 none [] now_iso
      | none =>
        match metadata.function_ref with
        | some fid =>
          let args :=
            if mcp_mode && alistHasKey metadata.parameters "silent" then
              filtered.setKey "silent" (.vBool true)
            else filtered
          match funcs fid args with
          | .ok result => if mcp_mode then mcpObj result else result
          | .error e =>
            create_error_response .EXECUTION .COMMAND_FAILED
              (some ("Tool execution failed: " ++ e))
              none none (some tool_name) 0 none [] now_iso
        | none =>
          create_error_response .SYSTEM .TOOL_MISSING
            (some "Tool function not available")
            none none (some tool_name) 0 none [] now_iso

/-- Code of the error object inside an envelope. -/
def envelopeErrorCode (e : ObjList) : Option Value :=
  match e.lookup "error" with
  | some (.vObj o) => o.lookup "code"
  | _ => none

/-! Session manager, src/instability_mcp/session_manager.py.  Instants are
seconds (`datetime.now()` readings); the conversational payload of a session
is irrelevant to the session-table lifecycle and omitted. -/

structure ChatbotSession where
  id : String
  created_at : Nat
  last_activity : Nat
deriving DecidableEq

structure SessionManager where
  sessions : List (String × ChatbotSession) := []
  max_sessions : Nat := 10
  session_timeout : Nat := 3600
deriving DecidableEq

/-- One pass of the background sweep `cleanup_expired_sessions`.  The source
compares `(current_time - session.last_activity).seconds`, the day-wrapped
seconds component of the timedelta, against the timeout. -/
def cleanup_expired_sessions (now : Nat) (mgr : SessionManager) : SessionManager :=
  { mgr with
      sessions := mgr.sessions.filter
        (fun p => !(decide ((now - p.2.last_activity) % 86400 > mgr.session_timeout))) }

/-- Python `min(keys, key=lambda sid: last_activity)`: the first key with the
minimal activity time, in insertion order. -/
def argminByLastActivity : List (String × ChatbotSession) → Option String
  | [] => none
  | (k, s) :: rest =>
    match argminByLastActivity rest, restMin rest with
    | some k', some m => if s.last_activity ≤ m then some k else some k'
    | _, _ => some k
where
  restMin : List (String × ChatbotSession) → Option Nat
    | [] => none
    | (_, s) :: rest =>
      match restMin rest with
      | none => some s.last_activity
      | some m => some (min s.last_activity m)

/-- Session creation (`create_session`): evict the least recently active
session at capacity, then insert a session whose id is a freshly generated
UUID (`fresh_id` stands for `str(uuid.uuid4())`). -/
def create_session (mgr : SessionManager) (now : Nat) (fresh_id : String) :
    ChatbotSession × SessionManager :=
  let mgr1 :=
    if mgr.sessions.length ≥ mgr.max_sessions then
      match argminByLastActivity mgr.sessions with
      | some oldest =>
        { mgr with sessions := mgr.sessions.filter (fun p => !(decide (p.1 = oldest))) }
      | none => mgr
    else mgr
  let s : ChatbotSession := ⟨fresh_id, now, now⟩
  (s, { mgr1 with sessions := alistSet mgr1.sessions fresh_id s })

/-- Retrieval (`get_or_create_session`): an existing session is returned with
refreshed activity; anything else — no id, empty id, or an id that is not in
the table — creates a brand-new session. -/
def get_or_create_session (mgr : SessionManager) (now : Nat) (fresh_id : String)
    (session_id : Option String) : ChatbotSession × SessionManager :=
  match session_id with
  | some sid =>
    if sid ≠ "" then
      match alistLookup mgr.sessions sid with
      | some s =>
        let s' := { s with last_activity := now }
        (s', { mgr with sessions := alistSet mgr.sessions sid s' })
      | none => create_session mgr now fresh_id
    else create_session mgr now fresh_id
  | none => create_session mgr now fresh_id

/-! NTP sweep aggregation, src/network/ntp_connectivity.py.  Offsets are
millisecond values; floating-point arithmetic on these inputs is exact, so
rationals are a faithful carrier. -/

/-- Threshold `NTP_SYNC_THRESHOLD_MS` from src/config.py. -/
def NTP_SYNC_THRESHOLD_MS : Rat := 100

structure NtpSummary where
  total_servers : Nat
  successful : Nat
  failed : Nat
  success_rate : Rat
  status : String
deriving DecidableEq

/-- Summary statistics of `check_ntp_servers`, computed from the per-server
outcomes after any retry pass: counts, percentage success rate and overall
status band. -/
def check_ntp_servers_summary (servers : List String)
    (reachable_offsets : List Rat) (unreachable_count : Nat) : NtpSummary :=
  let total := servers.length
  let successful := reachable_offsets.length
  let success_rate : Rat :=
    if total > 0 then (successful : Rat) / (total : Rat) * 100 else 0
  let status :=
    if successful = total then "success"
    else if (successful : Rat) ≥ (total : Rat) * (8 / 10) then "success"
    else if successful > 0 then "partial"
    else "error"
  ⟨total, successful, unreachable_count, success_rate, status⟩

/-- Python `min(offsets)` (guarded by non-emptiness in the source). -/
def pyMin : List Rat → Rat
  | [] => 0
  | x :: rest => rest.foldl min x

/-- Python `max(offsets)` (guarded by non-emptiness in the source). -/
def pyMax : List Rat → Rat
  | [] => 0
  | x :: rest => rest.foldl max x

/-- Offset spread computed by `analyze_ntp_sync`. -/
def offset_range_of (offsets : List Rat) : Rat :=
  if offsets = [] then 0 else pyMax offsets - pyMin offsets

/-- Quality band of `analyze_ntp_sync`: excellent within the threshold, good
within twice, moderate within five times, poor beyond. -/
def sync_quality_of (offset_range threshold_ms : Rat) : String :=
  if offset_range ≤ threshold_ms then "excellent"
  else if offset_range ≤ threshold_ms * 2 then "good"
  else if offset_range ≤ threshold_ms * 5 then "moderate"
  else "poor"

/-! Dictionary lemmas used by the envelope and registry claims. -/

theorem ObjList.lookup_setKey_self : (d : ObjList) → (k : String) → (v : Value) →
    (d.setKey k v).lookup k = some v
  | .nil, k, v => by simp [ObjList.setKey, ObjList.lookup]
  | .cons k1 v1 rest, k, v => by
    by_cases h : k1 = k
    · simp [ObjList.setKey, ObjList.lookup, h]
    · simp [ObjList.setKey, ObjList.lookup, h, ObjList.lookup_setKey_self rest k v]

theorem ObjList.lookup_setKey_other : (d : ObjList) → {k k' : String} → (v : Value) →
    k ≠ k' → (d.setKey k v).lookup k' = d.lookup k'
  | .nil, k, k', v, h => by simp [ObjList.setKey, ObjList.lookup, h]
  | .cons k1 v1 rest, k, k', v, h => by
    by_cases h1 : k1 = k
    · subst h1
      simp [ObjList.setKey, ObjList.lookup, h]
    · simp [ObjList.setKey, ObjList.lookup, h1, ObjList.lookup_setKey_other rest v h]

theorem ObjList.hasKey_setKey {d : ObjList} {k' : String} (k : String) (v : Value)
    (h : d.hasKey k' = true) : (d.setKey k v).hasKey k' = true := by
  by_cases hk : k = k'
  · subst hk
    simp [ObjList.hasKey, ObjList.lookup_setKey_self]
  · simpa [ObjList.hasKey, ObjList.lookup_setKey_other d v hk] using h

theorem ObjList.hasKey_updateWith : (kvs : ObjList) → {d : ObjList} → {k : String} →
    d.hasKey k = true → (d.updateWith kvs).hasKey k = true
  | .nil, d, k, h => by simpa [ObjList.updateWith] using h
  | .cons k1 v1 rest, d, k, h => by
    rw [ObjList.updateWith]
    exact ObjList.hasKey_updateWith rest (ObjList.hasKey_setKey k1 v1 h)

theorem ObjList.lookup_updateWith_fresh : (kvs : ObjList) → {d : ObjList} → {k : String} →
    kvs.hasKey k = false → (d.updateWith kvs).lookup k = d.lookup k
  | .nil, d, k, _ => by simp [ObjList.updateWith]
  | .cons k1 v1 rest, d, k, h => by
    have hk1 : ¬(k1 = k) := by
      intro he
      simp [ObjList.hasKey, ObjList.lookup, he] at h
    have hrest : rest.hasKey k = false := by
      simpa [ObjList.hasKey, ObjList.lookup, hk1] using h
    rw [ObjList.updateWith, ObjList.lookup_updateWith_fresh rest hrest,
      ObjList.lookup_setKey_other d v1 hk1]

/-- C1 counterexample: the probe `monitor_external_ip_changes` returns a
reduced report dictionary, not the standard envelope — on a first-run
invocation the key `exit_code` (a required envelope key) is absent. -/
theorem claim_C1_counterexample :
    ("exit_code" ∈ requiredEnvelopeKeys) ∧
    (monitor_external_ip_changes "203.0.113.9" "2026-01-01T00:00:00" none).hasKey
      "exit_code" = false := by
  constructor
  · simp [requiredEnvelopeKeys]
  · decide

/-- C1 amended: envelopes built by `create_tool_result` always contain all
thirteen required keys; success envelopes built by `create_success_result`
(whose extra keyword fields cannot collide with the named fields — Python
raises `TypeError` on duplicate keyword arguments) have `success = true` and
null `error_type` and `error_message`; failure envelopes built by
`create_error_response` have `success = false` and non-null string
`error_type` and `error_message`.  The probe `monitor_external_ip_changes`
does not build its result through these constructors and lacks the envelope
keys. -/
theorem claim_C1_amended_envelope_shape :
    (∀ succ tn (et : Rat) ce tg so se pd ety emsg (ec : Int) ou ts kwargs,
      ∀ k ∈ requiredEnvelopeKeys,
        (create_tool_result succ tn et ce tg so se pd ety emsg ec ou ts kwargs).hasKey
          k = true) ∧
    (∀ tn (et : Rat) pd ce tg so ou ts (kwargs : ObjList),
      kwargs.hasKey "success" = false →
      kwargs.hasKey "error_type" = false →
      kwargs.hasKey "error_message" = false →
      (create_success_result tn et pd ce tg so ou ts kwargs).lookup "success"
          = some (.vBool true) ∧
      (create_success_result tn et pd ce tg so ou ts kwargs).lookup "error_type"
          = some .vNull ∧
      (create_success_result tn et pd ce tg so ou ts kwargs).lookup "error_message"
          = some .vNull) ∧
    (∀ ty code msg details sugg tn (et : Rat) tg fa now,
      (create_error_response ty code msg details sugg tn et tg fa now).lookup "success"
          = some (.vBool false) ∧
      (create_error_response ty code msg details sugg tn et tg fa now).lookup "error_type"
          = some (.vStr ty.val) ∧
      ∃ m, (create_error_response ty code msg details sugg tn et tg fa now).lookup
          "error_message" = some (.vStr m)) := by
  refine ⟨?_, ?_, ?_⟩
  · intro succ tn et ce tg so se pd ety emsg ec ou ts kwargs k hk
    apply ObjList.hasKey_updateWith
    fin_cases hk <;> simp [ObjList.hasKey, ObjList.lookup]
  · intro tn et pd ce tg so ou ts kwargs h1 h2 h3
    refine ⟨?_, ?_, ?_⟩
    · rw [create_success_result, create_tool_result,
        ObjList.lookup_updateWith_fresh kwargs h1]
      simp [ObjList.lookup]
    · rw [create_success_result, create_tool_result,
        ObjList.lookup_updateWith_fresh kwargs h2]
      simp [ObjList.lookup, optStr]
    · rw [create_success_result, create_tool_result,
        ObjList.lookup_updateWith_fresh kwargs h3]
      simp [ObjList.lookup, optStr]
  · intro ty code msg details sugg tn et tg fa now
    refine ⟨?_, ?_, ?_⟩
    · simp [create_error_response, ObjList.lookup]
    · simp [create_error_response, ObjList.lookup]
    · exact ⟨resolvedMessage ty code msg tg tn fa,
        by simp [create_error_response, ObjList.lookup]⟩

/-- C1 witness: the amended envelope-shape theorem at concrete inputs. -/
theorem claim_C1_amended_witness :
    (create_tool_result true "ping_host" 1 "ping 127.0.0.1" none "" "" none none none 0
        none "2026-01-01T00:00:00" .nil).hasKey "exit_code" = true ∧
    (create_success_result "ping_host" 1 .nil "ping 127.0.0.1" none "" none
        "2026-01-01T00:00:00" .nil).lookup "success" = some (.vBool true) := by
  constructor
  · exact claim_C1_amended_envelope_shape.1 true "ping_host" 1 "ping 127.0.0.1" none ""
      "" none none none 0 none "2026-01-01T00:00:00" .nil "exit_code"
      (by simp [requiredEnvelopeKeys])
  · exact (claim_C1_amended_envelope_shape.2.1 "ping_host" 1 .nil "ping 127.0.0.1" none
      "" none "2026-01-01T00:00:00" .nil rfl rfl rfl).1

/-- C2: `execute_tool` never raises — the embedding is a total function into
envelopes, probe exceptions arriving as `Except.error` — and whenever the
underlying tool function raises, the call returns a failure envelope whose
`error_type` equals "execution". -/
theorem claim_C2_no_exception_escape
    (funcs : FuncEnv) (mcp_mode : Bool) (reg : ToolRegistry) (tool_name : String)
    (parameters : Option ObjList) (mode : String) (now_iso : String)
    (metadata : ToolMetadata) (fid : Nat) (e : String)
    (hget : get_tool reg tool_name = some metadata)
    (hmode : metadata.modes.contains mode = true)
    (hext : (metadata.requires_external_tool &&
      !(match metadata.external_tool_name with
        | some n => reg.external_tools.contains n
        | none => false)) = false)
    (hreq : firstMissingRequired metadata.parameters
      (filterDeclared (parameters.getD .nil) metadata.parameters) = none)
    (href : metadata.function_ref = some fid)
    (hcall : funcs fid
      (if mcp_mode && alistHasKey metadata.parameters "silent" then
        (filterDeclared (parameters.getD .nil) metadata.parameters).setKey "silent"
          (.vBool true)
      else filterDeclared (parameters.getD .nil) metadata.parameters) = .error e) :
    (execute_tool funcs mcp_mode reg tool_name parameters mode now_iso).lookup
        "error_type" = some (.vStr "execution") ∧
    (execute_tool funcs mcp_mode reg tool_name parameters mode now_iso).lookup
        "success" = some (.vBool false) ∧
    (execute_tool funcs mcp_mode reg tool_name parameters mode now_iso).lookup
        "error_message" = some (.vStr ("Tool execution failed: " ++ e)) := by
  have henv : execute_tool funcs mcp_mode reg tool_name parameters mode now_iso =
      create_error_response .EXECUTION .COMMAND_FAILED
        (some ("Tool execution failed: " ++ e))
        none none (some tool_name) 0 none [] now_iso := by
    simp only [execute_tool, hget]
    rw [if_neg (by simpa using hmode)]
    rw [if_neg (by rw [hext]; simp)]
    simp only [hreq, href, hcall]
  rw [henv]
  refine ⟨?_, ?_, ?_⟩ <;>
    simp [create_error_response, ObjList.lookup, ErrorType.val, resolvedMessage]

/-- C2 witness data: a one-tool registry whose probe always raises. -/
def c2_md : ToolMetadata :=
  { name := "boom_tool", function_name := "boom", module_path := "network.boom",
    function_ref := some 7 }

def c2_reg : ToolRegistry :=
  { tools := [("boom_tool", c2_md)] }

def c2_funcs : FuncEnv := fun _ _ => .error "socket timeout"

/-- C2 witness: the no-exception-escape theorem at a concrete registry. -/
theorem claim_C2_witness :
    (execute_tool c2_funcs false c2_reg "boom_tool" none "manual" "t").lookup
      "error_type" = some (.vStr "execution") :=
  (claim_C2_no_exception_escape c2_funcs false c2_reg "boom_tool" none "manual" "t"
    c2_md 7 "socket timeout" rfl rfl rfl rfl rfl rfl).1

/-- C9: a registered tool whose function reference is unresolved yields a
failure envelope in category `system` with code `tool_missing` and message
"Tool function not available"; the function environment is never consulted,
so no call is attempted. -/
theorem claim_C9_unresolved_function_ref
    (funcs : FuncEnv) (mcp_mode : Bool) (reg : ToolRegistry) (tool_name : String)
    (parameters : Option ObjList) (mode : String) (now_iso : String)
    (metadata : ToolMetadata)
    (hget : get_tool reg tool_name = some metadata)
    (hmode : metadata.modes.contains mode = true)
    (hext : (metadata.requires_external_tool &&
      !(match metadata.external_tool_name with
        | some n => reg.external_tools.contains n
        | none => false)) = false)
    (hreq : firstMissingRequired metadata.parameters
      (filterDeclared (parameters.getD .nil) metadata.parameters) = none)
    (href : metadata.function_ref = none) :
    (execute_tool funcs mcp_mode reg tool_name parameters mode now_iso).lookup
        "error_type" = some (.vStr "system") ∧
    envelopeErrorCode (execute_tool funcs mcp_mode reg tool_name parameters mode now_iso)
        = some (.vStr "tool_missing") ∧
    (execute_tool funcs mcp_mode reg tool_name parameters mode now_iso).lookup
        "error_message" = some (.vStr "Tool function not available") ∧
    (execute_tool funcs mcp_mode reg tool_name parameters mode now_iso).lookup
        "success" = some (.vBool false) ∧
    (∀ funcs₂ : FuncEnv,
      execute_tool funcs₂ mcp_mode reg tool_name parameters mode now_iso =
        execute_tool funcs mcp_mode reg tool_name parameters mode now_iso) := by
  have henv : ∀ f : FuncEnv,
      execute_tool f mcp_mode reg tool_name parameters mode now_iso =
      create_error_response .SYSTEM .TOOL_MISSING
        (some "Tool function not available")
        none none (some tool_name) 0 none [] now_iso := by
    intro f
    simp only [execute_tool, hget]
    rw [if_neg (by simpa using hmode)]
    rw [if_neg (by rw [hext]; simp)]
    simp only [hreq, href]
  rw [henv]
  refine ⟨?_, ?_, ?_, ?_, ?_⟩
  · simp [create_error_response, ObjList.lookup, ErrorType.val]
  · simp [create_error_response, envelopeErrorCode, ObjList.lookup, ErrorCode.val]
  · simp [create_error_response, ObjList.lookup, resolvedMessage]
  · simp [create_error_response, ObjList.lookup]
  · intro funcs₂
    rw [henv funcs₂]

/-- C9 witness data: a registered tool with an unresolved implementation. -/
def c9_md : ToolMetadata :=
  { name := "ghost_tool", function_name := "ghost", module_path := "network.ghost",
    function_ref := none }

def c9_reg : ToolRegistry :=
  { tools := [("ghost_tool", c9_md)] }

/-- C9 witness: the unresolved-function theorem at a concrete registry. -/
theorem claim_C9_witness :
    envelopeErrorCode (execute_tool c2_funcs false c9_reg "ghost_tool" none "manual" "t")
      = some (.vStr "tool_missing") :=
  (claim_C9_unresolved_function_ref c2_funcs false c9_reg "ghost_tool" none "manual" "t"
    c9_md rfl rfl rfl rfl rfl).2.1

/-- C3: starting with no stored history, the fetched-IP sequence
[A, A, B, B, A] (with A and B distinct) reports a change exactly on the 3rd
and 5th invocations and leaves `previous_ip = B` afterwards; moreover every
invocation whose fetched IP equals the stored current IP leaves
`previous_ip` and `previous_timestamp` untouched and only refreshes the
current timestamp. -/
theorem claim_C3_ip_change_fsm (A B : String) (hAB : A ≠ B) :
    (run_ip_sequence 0 none [A, A, B, B, A]).1 = [false, false, true, false, true] ∧
    (match (run_ip_sequence 0 none [A, A, B, B, A]).2 with
      | some (some h) => h.previous_ip
      | _ => none) = some B ∧
    (∀ (fs : Option (Option IpHistory)) (ip now : String),
      (load_ip_history fs).current_ip = some ip →
      (check_ip_change_status (some ip) "" now fs).1 = false ∧
      (check_ip_change_status (some ip) "" now fs).2.2 =
        some { load_ip_history fs with current_timestamp := some now }) := by
  have hBA : B ≠ A := Ne.symm hAB
  refine ⟨?_, ?_, ?_⟩
  · simp [run_ip_sequence, check_ip_change_status, check_ip_change_core,
      update_ip_history, load_ip_history, defaultIpHistory, save_ip_history, hAB, hBA]
  · simp [run_ip_sequence, check_ip_change_status, check_ip_change_core,
      update_ip_history, load_ip_history, defaultIpHistory, save_ip_history, hAB, hBA]
  · intro fs ip now h
    rcases hl : load_ip_history fs with ⟨ci, ct, pi, pt⟩
    rw [hl] at h
    simp only at h
    subst h
    constructor
    · simp [check_ip_change_status, check_ip_change_core, hl]
    · simp [check_ip_change_status, check_ip_change_core, update_ip_history, hl]

/-- C3 witness: the FSM theorem at two concrete addresses. -/
theorem claim_C3_witness :
    (run_ip_sequence 0 none ["198.51.100.1", "198.51.100.1", "203.0.113.2",
      "203.0.113.2", "198.51.100.1"]).1 = [false, false, true, false, true] :=
  (claim_C3_ip_change_fsm "198.51.100.1" "203.0.113.2" (by decide)).1

/-- C7 evidence data: a single session whose last activity is one day and ten
minutes in the past. -/
def c7_mgr : SessionManager :=
  { sessions := [("s1", ⟨"s1", 0, 0⟩)] }

/-- C7: the background sweep computes the timedelta's day-wrapped `seconds`
component instead of its total seconds, so a session idle for 87000 seconds
(1 day 10 minutes, far beyond the 3600-second timeout) is not evicted —
contradicting the claimed eviction of every session older than the timeout. -/
theorem claim_C7_day_wrap_bug :
    cleanup_expired_sessions 87000 c7_mgr = c7_mgr ∧
    87000 - 0 > c7_mgr.session_timeout ∧
    (87000 - 0) % 86400 ≤ c7_mgr.session_timeout := by
  refine ⟨by decide, by decide, by decide⟩

/-- Shape of an atomic write-then-rename trace targeting a given final path,
as the claim describes: write a temporary file, then rename it over the
destination.  This predicate follows the claim's words, to be compared with
the trace the source produces. -/
def isAtomicReplaceTrace (ops : List FileOp) (finalPath : String) : Bool :=
  match ops with
  | [FileOp.writeFile p _, FileOp.renameFile src dst] =>
    (p == src) && (dst == finalPath) && !(p == finalPath)
  | _ => false

/-- C8 counterexample: `save_ip_history` performs a single direct write to
the final history path — no temporary file, no rename — so the save trace is
not an atomic-replacement trace. -/
theorem claim_C8_counterexample :
    isAtomicReplaceTrace
      (save_ip_history ⟨some "198.51.100.7", some "2026-01-01T00:00:00", none, none⟩)
      config_file_path = false ∧
    save_ip_history ⟨some "198.51.100.7", some "2026-01-01T00:00:00", none, none⟩ =
      [.writeFile config_file_path
        ⟨some "198.51.100.7", some "2026-01-01T00:00:00", none, none⟩] := by
  refine ⟨by decide, by decide⟩

/-- C8 amended: every write of the history file is a single direct write to
the final path (`open(config_file, "w")` + `json.dump`), never a rename, so
the write is not atomic; reads do tolerate a missing file (and an unreadable
one) by returning the empty default structure. -/
theorem claim_C8_amended_direct_write :
    (∀ d : IpHistory, save_ip_history d = [.writeFile config_file_path d]) ∧
    (∀ d : IpHistory, ∀ op ∈ save_ip_history d, ∀ src dst, op ≠ .renameFile src dst) ∧
    load_ip_history none = defaultIpHistory ∧
    load_ip_history (some none) = defaultIpHistory := by
  refine ⟨fun d => rfl, ?_, rfl, rfl⟩
  intro d op hop src dst
  simp only [save_ip_history, List.mem_singleton] at hop
  subst hop
  simp

/-- C8 witness: the amended direct-write theorem at a concrete document. -/
theorem claim_C8_witness :
    save_ip_history defaultIpHistory = [.writeFile config_file_path defaultIpHistory] ∧
    FileOp.writeFile config_file_path defaultIpHistory ≠ .renameFile "tmp" "dst" :=
  ⟨claim_C8_amended_direct_write.1 defaultIpHistory,
   claim_C8_amended_direct_write.2.1 defaultIpHistory _ (by simp [save_ip_history])
     "tmp" "dst"⟩

/-- C10: a requested session id that is absent from the table is not reused —
`get_or_create_session` falls through to `create_session`, whose new session
carries a freshly generated UUID (`fresh_id`), so the returned id differs
from the requested id whenever the fresh UUID does. -/
theorem claim_C10_fresh_session_id (mgr : SessionManager) (now : Nat)
    (fresh_id s : String)
    (habs : alistLookup mgr.sessions s = none) :
    (get_or_create_session mgr now fresh_id (some s)).1.id = fresh_id ∧
    (fresh_id ≠ s → (get_or_create_session mgr now fresh_id (some s)).1.id ≠ s) := by
  have hid : (get_or_create_session mgr now fresh_id (some s)).1.id = fresh_id := by
    by_cases hs : s = ""
    · subst hs
      simp [get_or_create_session, create_session]
    · simp [get_or_create_session, hs, habs, create_session]
  exact ⟨hid, fun hne => by rw [hid]; exact hne⟩

/-- C10 witness: the fresh-id theorem at a concrete manager. -/
theorem claim_C10_witness :
    (get_or_create_session {} 5 "3f2504e0-4f89-11d3-9a0c-0305e82c3301"
      (some "expired-session")).1.id = "3f2504e0-4f89-11d3-9a0c-0305e82c3301" ∧
    (get_or_create_session {} 5 "3f2504e0-4f89-11d3-9a0c-0305e82c3301"
      (some "expired-session")).1.id ≠ "expired-session" := by
  have h := claim_C10_fresh_session_id {} 5 "3f2504e0-4f89-11d3-9a0c-0305e82c3301"
    "expired-session" rfl
  exact ⟨h.1, h.2 (by decide)⟩

theorem alistLookup_set_self {α : Type} (l : List (String × α)) (k : String) (v : α) :
    alistLookup (alistSet l k v) k = some v := by
  induction l with
  | nil => simp [alistSet, alistLookup]
  | cons p rest ih =>
    obtain ⟨k1, v1⟩ := p
    by_cases h : k1 = k
    · simp [alistSet, alistLookup, h]
    · simp [alistSet, alistLookup, h, ih]

theorem alistLookup_set_other {α : Type} (l : List (String × α)) {k k' : String} (v : α)
    (h : k ≠ k') : alistLookup (alistSet l k v) k' = alistLookup l k' := by
  induction l with
  | nil => simp [alistSet, alistLookup, h]
  | cons p rest ih =>
    obtain ⟨k1, v1⟩ := p
    by_cases h1 : k1 = k
    · subst h1
      simp [alistSet, alistLookup, h]
    · simp [alistSet, alistLookup, h1, ih]

theorem alistLookup_append {α : Type} (l1 l2 : List (String × α)) (k : String) :
    alistLookup (l1 ++ l2) k =
      (match alistLookup l1 k with
        | some v => some v
        | none => alistLookup l2 k) := by
  induction l1 with
  | nil => simp [alistLookup]
  | cons p rest ih =>
    by_cases h : p.1 = k
    · simp [alistLookup, h]
    · simp [alistLookup, h, ih]

/-- Bindings already present survive the alias-registration fold, which only
ever appends fresh entries at the end. -/
theorem aliasFold_preserve (md' : ToolMetadata) :
    ∀ (als : List String) (ts : List (String × ToolMetadata)) {k : String}
      {v : ToolMetadata}, alistLookup ts k = some v →
      alistLookup
        (als.foldl (fun ts al => if alistHasKey ts al then ts else ts ++ [(al, md')]) ts)
        k = some v := by
  intro als
  induction als with
  | nil => intro ts k v h; simpa using h
  | cons al rest ih =>
    intro ts k v h
    rw [List.foldl_cons]
    by_cases hk : alistHasKey ts al
    · rw [if_pos hk]
      exact ih ts h
    · rw [if_neg hk]
      apply ih
      rw [alistLookup_append, h]

/-- An alias that starts out unbound (or already bound to the registered
metadata) ends up bound to the registered metadata after the fold. -/
theorem aliasFold_acquire (md' : ToolMetadata) :
    ∀ (als : List String) (ts : List (String × ToolMetadata)) {a : String},
      a ∈ als → (alistLookup ts a = none ∨ alistLookup ts a = some md') →
      alistLookup
        (als.foldl (fun ts al => if alistHasKey ts al then ts else ts ++ [(al, md')]) ts)
        a = some md' := by
  intro als
  induction als with
  | nil => intro ts a ha _; cases ha
  | cons al rest ih =>
    intro ts a ha hd
    rw [List.foldl_cons]
    rcases List.mem_cons.mp ha with he | hrest
    · subst he
      by_cases hk : alistHasKey ts a
      · rw [if_pos hk]
        rcases hd with hd | hd
        · rw [alistHasKey, hd] at hk
          simp at hk
        · exact aliasFold_preserve md' rest ts hd
      · rw [if_neg hk]
        rcases hd with hd | hd
        · apply aliasFold_preserve md' rest
          rw [alistLookup_append, hd]
          simp [alistLookup]
        · rw [alistHasKey, hd] at hk
          simp at hk
    · by_cases hk : alistHasKey ts al
      · rw [if_pos hk]
        exact ih ts hrest hd
      · rw [if_neg hk]
        apply ih _ hrest
        rcases hd with hd | hd
        · rw [alistLookup_append, hd]
          by_cases hal : al = a
          · subst hal
            exact Or.inr (by simp [alistLookup])
          · exact Or.inl (by simp [alistLookup, hal])
        · exact Or.inr (by rw [alistLookup_append, hd])

/-- C4 counterexample data: a second tool declares as alias the name under
which an earlier tool is already registered. -/
def c4_resolve : ResolveEnv := fun _ _ => some (some 0)

def c4_md1 : ToolMetadata :=
  { name := "alpha_tool", function_name := "alpha", module_path := "network.alpha" }

def c4_md2 : ToolMetadata :=
  { name := "beta_tool", function_name := "beta", module_path := "network.beta",
    aliases := ["alpha_tool"] }

def c4_reg : ToolRegistry :=
  match register_tool {} c4_md1 c4_resolve with
  | .ok r1 =>
    match register_tool r1 c4_md2 c4_resolve with
    | .ok r2 => r2
    | .error _ => {}
  | .error _ => {}

/-- C4 counterexample: after registering `alpha_tool` and then `beta_tool`
with alias "alpha_tool", the alias keeps resolving to the older tool —
`register_tool` skips aliases whose name is already bound — so
`get_tool(alias)` differs from `get_tool(name)`. -/
theorem claim_C4_counterexample :
    ("alpha_tool" ∈ c4_md2.aliases) ∧
    get_tool c4_reg "alpha_tool" ≠ get_tool c4_reg "beta_tool" ∧
    (get_tool c4_reg "alpha_tool").isSome = true ∧
    (get_tool c4_reg "beta_tool").isSome = true := by
  refine ⟨by decide, by decide, by decide, by decide⟩

/-- C4 amended: an alias that is not already bound in the registry resolves,
after registration, to the same metadata object as the canonical name; an
alias that collides with an existing binding keeps its prior target. -/
theorem claim_C4_amended_alias_identity
    (reg : ToolRegistry) (metadata : ToolMetadata) (resolve : ResolveEnv)
    (r : ToolRegistry) (a : String)
    (ha : a ∈ metadata.aliases)
    (hfresh : alistLookup reg.tools a = none)
    (hok : register_tool reg metadata resolve = .ok r) :
    get_tool r a = get_tool r metadata.name ∧ (get_tool r a).isSome = true := by
  rw [register_tool] at hok
  split_ifs at hok with h1 h2 h3 h4
  · cases hres : resolve metadata.module_path metadata.function_name with
    | none =>
      rw [hres] at hok
      exact Except.noConfusion hok
    | some rr =>
      rw [hres] at hok
      simp only [Except.ok.injEq] at hok
      subst hok
      have hname : alistLookup
          (alistSet reg.tools metadata.name { metadata with function_ref := rr })
          metadata.name = some { metadata with function_ref := rr } :=
        alistLookup_set_self _ _ _
      have hgoalname : get_tool
          { reg with
              tools := metadata.aliases.foldl
                (fun ts al => if alistHasKey ts al then ts
                  else ts ++ [(al, { metadata with function_ref := rr })])
                (alistSet reg.tools metadata.name { metadata with function_ref := rr }),
              categories := match alistLookup reg.categories metadata.category with
                | none => reg.categories ++ [(metadata.category, [metadata.name])]
                | some l => alistSet reg.categories metadata.category
                    (l ++ [metadata.name]) }
          metadata.name = some { metadata with function_ref := rr } :=
        aliasFold_preserve _ _ _ hname
      have hgoala : get_tool
          { reg with
              tools := metadata.aliases.foldl
                (fun ts al => if alistHasKey ts al then ts
                  else ts ++ [(al, { metadata with function_ref := rr })])
                (alistSet reg.tools metadata.name { metadata with function_ref := rr }),
              categories := match alistLookup reg.categories metadata.category with
                | none => reg.categories ++ [(metadata.category, [metadata.name])]
                | some l => alistSet reg.categories metadata.category
                    (l ++ [metadata.name]) }
          a = some { metadata with function_ref := rr } := by
        apply aliasFold_acquire _ _ _ ha
        by_cases hn : metadata.name = a
        · subst hn
          exact Or.inr hname
        · exact Or.inl (by rw [alistLookup_set_other _ _ hn, hfresh])
      rw [hgoala, hgoalname]
      exact ⟨rfl, rfl⟩

/-- C4 witness data: the aliased tool registered into an empty registry. -/
def c4_fresh_reg : ToolRegistry :=
  match register_tool {} c4_md2 c4_resolve with
  | .ok r => r
  | .error _ => {}

/-- C4 witness: the amended alias-identity theorem at a concrete registry. -/
theorem claim_C4_amended_witness :
    get_tool c4_fresh_reg "alpha_tool" = get_tool c4_fresh_reg "beta_tool" ∧
    (get_tool c4_fresh_reg "alpha_tool").isSome = true :=
  claim_C4_amended_alias_identity {} c4_md2 c4_resolve c4_fresh_reg "alpha_tool"
    (by decide) (by decide) (by rfl)

/-- C5 scenario data: four servers, three responding with offsets +5, -3 and
+12 milliseconds, one timing out. -/
def c5_servers : List String :=
  ["time.a.example", "time.b.example", "time.c.example", "time.d.example"]

def c5_offsets : List Rat := [5, -3, 12]

theorem c5_success_rate :
    (check_ntp_servers_summary c5_servers c5_offsets 1).success_rate = 75 := by
  norm_num [check_ntp_servers_summary, c5_servers, c5_offsets]

theorem c5_offset_range : offset_range_of c5_offsets = 15 := by
  have hmax : pyMax c5_offsets = 12 := by
    norm_num [pyMax, c5_offsets, List.foldl, max_def]
  have hmin : pyMin c5_offsets = -3 := by
    norm_num [pyMin, c5_offsets, List.foldl, min_def]
  rw [offset_range_of, if_neg (show ¬(c5_offsets = []) from by decide), hmax, hmin]
  norm_num

theorem c5_quality_excellent :
    sync_quality_of (offset_range_of c5_offsets) NTP_SYNC_THRESHOLD_MS = "excellent" := by
  rw [c5_offset_range, sync_quality_of, NTP_SYNC_THRESHOLD_MS, if_pos (by norm_num)]

/-- C5 counterexample: in the four-server sweep with one timeout the summary
`success_rate` equals 75.0 — the rate expressed as a percentage, not the
fraction 0.75 — and with offset range 15 ms against the default 100 ms
threshold the quality band is "excellent" (range within the threshold
itself), not "good". -/
theorem claim_C5_counterexample :
    (check_ntp_servers_summary c5_servers c5_offsets 1).success_rate = 75 ∧
    ((75 : Rat) ≠ (0.75 : Rat)) ∧
    sync_quality_of (offset_range_of c5_offsets) NTP_SYNC_THRESHOLD_MS = "excellent" ∧
    ("excellent" ≠ "good") :=
  ⟨c5_success_rate, by norm_num, c5_quality_excellent, by decide⟩

/-- C5 amended: the scenario's summary `success_rate` is the percentage 75.0
(i.e. 3/4 expressed in percent), and the offset range of 15 ms is classified
"excellent" because it lies within the threshold itself; the "good" band is
reserved for ranges above the threshold but within twice the threshold. -/
theorem claim_C5_amended_batch_summary (r t : Rat) (h1 : t < r) (h2 : r ≤ 2 * t) :
    (check_ntp_servers_summary c5_servers c5_offsets 1).success_rate = 75 ∧
    (check_ntp_servers_summary c5_servers c5_offsets 1).successful = 3 ∧
    (check_ntp_servers_summary c5_servers c5_offsets 1).total_servers = 4 ∧
    (check_ntp_servers_summary c5_servers c5_offsets 1).status = "partial" ∧
    offset_range_of c5_offsets = 15 ∧
    sync_quality_of (offset_range_of c5_offsets) NTP_SYNC_THRESHOLD_MS = "excellent" ∧
    sync_quality_of r t = "good" := by
  refine ⟨c5_success_rate, by decide, by decide, ?_, c5_offset_range,
    c5_quality_excellent, ?_⟩
  · norm_num [check_ntp_servers_summary, c5_servers, c5_offsets]
  · rw [sync_quality_of, if_neg (by push_neg; linarith), if_pos (by linarith)]

/-- C5 witness: the amended summary theorem at range 150 ms against the
100 ms threshold. -/
theorem claim_C5_witness :
    sync_quality_of 150 100 = "good" :=
  (claim_C5_amended_batch_summary 150 100 (by norm_num) (by norm_num)).2.2.2.2.2.2
